import Mathlib

/-!
Verification model of `ryankurte/rust-spo2` (`src/lib.rs`).

The library exposes `Sensor::connect(opts)`: it selects a BLE adapter by
index, subscribes to central events, starts a scan, runs a time-bounded
event loop looking for a peripheral whose advertised local name starts
with the configured prefix string, and after the loop checks connection
state and discovers services, returning a connected `Sensor` handle or a
typed error.

The embedding below translates that function into pure Lean definitions.
The asynchronous BLE platform (btleplug) is modelled by a `World` record
holding, per peripheral id, the results the platform returns for each
operation (`peripheral`, `properties`, `is_connected`, `connect`,
`discover_services`, `services`), together with failure flags for the
fallible calls that the Rust code propagates with `?`.  The event stream
combined with the wall-clock check of the `while` loop is modelled by a
schedule: a list of iterations, each carrying the elapsed time observed
by the loop condition and the (optional) event delivered by the bounded
wait (`None` models a 500 ms wait timeout or stream end, which the code
treats as `continue`).  Commands issued to the platform are logged so
that theorems can speak about which imperative calls were made.
-/

/-- Opaque comparable identifier of a remote BLE device (btleplug `PeripheralId`). -/
abbrev PeripheralId := Nat

/-- Advertised metadata of a peripheral.  Only `local_name` is read by
`Sensor::connect` (line 113 of `src/lib.rs`), so only that field is modelled. -/
structure PeripheralProperties where
  local_name : Option String
deriving DecidableEq, Repr

/-- A GATT service as surfaced by btleplug: a UUID, a primary flag and its
characteristics.  UUIDs and characteristics are opaque to the driver
(only logged), so they are modelled as numbers. -/
structure Service where
  uuid : Nat
  primary : Bool
  characteristics : List Nat
deriving DecidableEq, Repr

/-- The btleplug `CentralEvent` variants dispatched on in the event loop
(lines 92-152 of `src/lib.rs`).  Payloads other than the peripheral id are
only logged by the code, so their precise type is irrelevant. -/
inductive CentralEvent
  | deviceDiscovered (id : PeripheralId)
  | deviceConnected (id : PeripheralId)
  | deviceDisconnected (id : PeripheralId)
  | manufacturerDataAdvertisement (id : PeripheralId) (manufacturerData : List (Nat × List Nat))
  | servicesAdvertisement (id : PeripheralId) (services : List Nat)
  | serviceDataAdvertisement (id : PeripheralId) (serviceData : List (Nat × List Nat))
  | deviceUpdated (id : PeripheralId)
deriving DecidableEq, Repr

/-- The peripheral id an event carries. -/
def CentralEvent.idOf : CentralEvent → PeripheralId
  | .deviceDiscovered i => i
  | .deviceConnected i => i
  | .deviceDisconnected i => i
  | .manufacturerDataAdvertisement i _ => i
  | .servicesAdvertisement i _ => i
  | .serviceDataAdvertisement i _ => i
  | .deviceUpdated i => i

/-- The `Options` struct of `src/lib.rs` (lines 18-31).  `search_timeout` is a
duration; it is modelled in abstract time units matching the schedule below. -/
structure Options where
  adaptor : Nat
  local_name : String
  search_timeout : Nat
deriving Repr

/-- The `Error` enum of `src/lib.rs` (lines 33-49).  `Ble(e)` wraps an
underlying btleplug error whose payload the driver never inspects. -/
inductive Error
  | ble
  | noMatchingAdaptor (i : Nat)
  | noDeviceFound
  | connectFailed
  | noServicesFound
deriving DecidableEq, Repr

/-- An adapter handle; the driver only selects one and never inspects it. -/
abbrev Adapter := Unit

/-- Imperative commands the driver issues against the platform, recorded so
that theorems can count scan / connect / discover calls. -/
inductive Command
  | startScan
  | stopScan
  | connectCmd (p : PeripheralId)
  | discoverCmd (p : PeripheralId)
deriving DecidableEq, Repr

/-- The platform model.  Static fields are the responses the BLE stack gives
to each call; `connected` and `discovered` are the pieces of platform state
that the driver's own commands mutate (a successful `connect` moves the
connection state to `connectOutcome p`; a successful `discover_services`
populates the service list with `deviceServices p`, which `services()`
then reads back). -/
structure World where
  managerFails : Bool
  adaptersFails : Bool
  adapters : List Adapter
  eventsFails : Bool
  startScanFails : Bool
  peripheralFails : PeripheralId → Bool
  props : PeripheralId → Except Unit (Option PeripheralProperties)
  isConnectedFails : PeripheralId → Bool
  connected : PeripheralId → Bool
  connectFails : PeripheralId → Bool
  connectOutcome : PeripheralId → Bool
  discoverFails : PeripheralId → Bool
  deviceServices : PeripheralId → List Service
  discovered : PeripheralId → List Service

/-- Effect of a successful `connect()` call on peripheral `p`. -/
def setConnected (w : World) (p : PeripheralId) (b : Bool) : World :=
  { w with connected := fun q => if q = p then b else w.connected q }

/-- Effect of a successful `discover_services()` call on peripheral `p`. -/
def setDiscovered (w : World) (p : PeripheralId) (svc : List Service) : World :=
  { w with discovered := fun q => if q = p then svc else w.discovered q }

/-- Rust `str::starts_with(&str)`: a codepoint-sequence prefix test (for valid
UTF-8 strings this coincides with Rust's byte-prefix semantics). -/
def strStartsWith (l pre : String) : Bool :=
  List.isPrefixOf pre.data l.data

/-- The device-matching decision of lines 99-127 of `src/lib.rs`, given the
(successfully fetched) optional properties and the configured name: the
device is a candidate iff properties are present, carry a `local_name`, and
that name starts with the configured string.  `Ok(None)` from
`properties()` is the `none` case here. -/
def deviceMatches (op : Option PeripheralProperties) (pre : String) : Bool :=
  match op with
  | none => false
  | some p =>
    match p.local_name with
    | none => false
    | some l => strStartsWith l pre

/-- The loop-local mutable state of `Sensor::connect`: `device` and `pid`
(lines 79-80 of `src/lib.rs`).  The stored peripheral handle is its id. -/
structure LoopState where
  device : Option (PeripheralId × PeripheralProperties)
  pid : Option PeripheralId
deriving DecidableEq, Repr

/-- Initial loop state: `let mut device = None; let mut pid = None;`. -/
def initState : LoopState := { device := none, pid := none }

/-- Result of one loop-body iteration: an updated world/state plus the
commands issued, an abort through `?` (`fail`), or a panic of the
`device.as_ref().unwrap()` on line 132. -/
inductive StepResult
  | ok (w : World) (st : LoopState) (cmds : List Command)
  | fail (e : Error)
  | panicked

/-- One iteration of the event dispatch, lines 92-152 of `src/lib.rs`.

* `DeviceDiscovered(id)` with no candidate yet: resolve the peripheral
  (fallible via `?`), fetch properties (`Err`/`Ok(None)` are logged and
  `continue`), and if the name matches, connect when not connected or
  discover services when already connected, then set `device` and `pid`.
* `DeviceConnected(id)` with a matching candidate id: discover services on
  the stored handle, unwrapping `device`.
* Every other (event, pid) combination — including `DeviceDisconnected`,
  the advertisement/update events, and any event whose id is not the
  candidate's — only logs and changes nothing. -/
def step (opts : Options) (w : World) (st : LoopState) (evt : CentralEvent) : StepResult :=
  match evt, st.pid with
  | .deviceDiscovered id, none =>
    if w.peripheralFails id then .fail .ble
    else
      match w.props id with
      | .error _ => .ok w st []
      | .ok op =>
        if deviceMatches op opts.local_name then
          match op with
          | some p =>
            if w.isConnectedFails id then .fail .ble
            else if ! w.connected id then
              if w.connectFails id then .fail .ble
              else
                .ok (setConnected w id (w.connectOutcome id))
                  { device := some (id, p), pid := some id } [.connectCmd id]
            else
              if w.discoverFails id then .fail .ble
              else
                .ok (setDiscovered w id (w.deviceServices id))
                  { device := some (id, p), pid := some id } [.discoverCmd id]
          | none => .ok w st []
        else .ok w st []
  | .deviceConnected id, some q =>
    if id = q then
      match st.device with
      | some d =>
        if w.discoverFails d.1 then .fail .ble
        else .ok (setDiscovered w d.1 (w.deviceServices d.1)) st [.discoverCmd d.1]
      | none => .panicked
    else .ok w st []
  | _, _ => .ok w st []

/-- Outcome of the whole event loop. -/
inductive LoopResult
  | done (w : World) (st : LoopState) (cmds : List Command)
  | fail (e : Error) (w : World) (cmds : List Command)
  | panicked

/-- One potential loop iteration: the elapsed wall-clock time the `while`
condition observes, and the event (if any) the bounded wait delivered;
`none` is a wait timeout or stream end, which the code `continue`s on. -/
abbrev Schedule := List (Nat × Option CentralEvent)

/-- The `while now.elapsed() < *opts.search_timeout` event loop of lines
82-153 of `src/lib.rs`, over a schedule of iterations.  The loop exits
normally only when the observed elapsed time reaches the timeout (or the
schedule is exhausted); an error propagated by `?` aborts it. -/
def runLoop (opts : Options) (w : World) (st : LoopState) (cmds : List Command) :
    Schedule → LoopResult
  | [] => .done w st cmds
  | (t, oe) :: rest =>
    if t < opts.search_timeout then
      match oe with
      | none => runLoop opts w st cmds rest
      | some e =>
        match step opts w st e with
        | .ok w' st' cs => runLoop opts w' st' (cmds ++ cs) rest
        | .fail e' => .fail e' w cmds
        | .panicked => .panicked
    else .done w st cmds

/-- The same event processing with no time bound: every scheduled iteration
is processed (unless an error or panic aborts it).  Used to state that
`runLoop`'s exit is decided by the clock alone. -/
def processAll (opts : Options) (w : World) (st : LoopState) (cmds : List Command) :
    Schedule → LoopResult
  | [] => .done w st cmds
  | (_, oe) :: rest =>
    match oe with
    | none => processAll opts w st cmds rest
    | some e =>
      match step opts w st e with
      | .ok w' st' cs => processAll opts w' st' (cmds ++ cs) rest
      | .fail e' => .fail e' w cmds
      | .panicked => .panicked

/-- The connected-sensor handle returned on success (`struct Sensor`). -/
structure Sensor where
  p : PeripheralId

/-- Result of `Sensor::connect`: the sensor with the final platform state and
the command log, a typed error likewise, or a panic. -/
inductive ConnectResult
  | ok (s : Sensor) (w : World) (cmds : List Command)
  | err (e : Error) (w : World) (cmds : List Command)
  | panicked

/-- The error a run produced, if any. -/
def ConnectResult.errorOf : ConnectResult → Option Error
  | .err e _ _ => some e
  | _ => none

/-- Whether the run returned `Ok`. -/
def ConnectResult.isOk : ConnectResult → Bool
  | .ok _ _ _ => true
  | _ => false

/-- The commands issued during the run (a panic yields the empty log). -/
def ConnectResult.cmdsOf : ConnectResult → List Command
  | .ok _ _ cmds => cmds
  | .err _ _ cmds => cmds
  | .panicked => []

/-- On success, the service list `services()` reports for the returned
handle in the final platform state. -/
def ConnectResult.sensorServices : ConnectResult → Option (List Service)
  | .ok s w _ => some (w.discovered s.p)
  | _ => none

/-- The post-loop phase of `Sensor::connect`, lines 155-211 of `src/lib.rs`:
drop the event subscription (the `stop_scan` call on line 158 is commented
out and the `#[cfg(nope)]` block is compiled out), fail with `NoDeviceFound`
when no candidate was set, otherwise ensure the candidate is connected
(one `connect` attempt and a re-check, else `ConnectFailed`), discover
services, fail with `NoServicesFound` when `services()` is empty, and
return the handle. -/
def postLoop (w : World) (st : LoopState) (cmds : List Command) : ConnectResult :=
  match st.device with
  | none => .err .noDeviceFound w cmds
  | some dv =>
    if w.isConnectedFails dv.1 then .err .ble w cmds
    else if ! w.connected dv.1 then
      if w.connectFails dv.1 then .err .ble w (cmds ++ [.connectCmd dv.1])
      else reCheck (setConnected w dv.1 (w.connectOutcome dv.1)) dv.1 (cmds ++ [.connectCmd dv.1])
    else discoverPhase w dv.1 cmds
where
  /-- Lines 181-185: after the post-loop `connect` attempt, query
  `is_connected` again and fail with `ConnectFailed` when still not
  connected; otherwise proceed to service discovery. -/
  reCheck (w : World) (dev : PeripheralId) (cmds : List Command) : ConnectResult :=
    if w.isConnectedFails dev then .err .ble w cmds
    else if ! w.connected dev then .err .connectFailed w cmds
    else discoverPhase w dev cmds
  /-- Lines 192-210: `discover_services`, the emptiness check, and the
  diagnostic traversal (log-only). -/
  discoverPhase (w : World) (dev : PeripheralId) (cmds : List Command) : ConnectResult :=
    if w.discoverFails dev then .err .ble w (cmds ++ [.discoverCmd dev])
    else
      let w1 := setDiscovered w dev (w.deviceServices dev)
      if (w1.discovered dev).isEmpty then .err .noServicesFound w1 (cmds ++ [.discoverCmd dev])
      else .ok { p := dev } w1 (cmds ++ [.discoverCmd dev])

/-- `Sensor::connect` (lines 58-211 of `src/lib.rs`): create the manager,
enumerate adapters and select the one at index `opts.adaptor` (else
`NoMatchingAdaptor`), subscribe to events, start the scan, run the event
loop, then the post-loop phase. -/
def Sensor.connect (opts : Options) (w : World) (sched : Schedule) : ConnectResult :=
  if w.managerFails then .err .ble w []
  else if w.adaptersFails then .err .ble w []
  else
    match w.adapters.get? opts.adaptor with
    | none => .err (.noMatchingAdaptor opts.adaptor) w []
    | some _ =>
      if w.eventsFails then .err .ble w []
      else if w.startScanFails then .err .ble w [.startScan]
      else
        match runLoop opts w initState [.startScan] sched with
        | .done w' st cmds => postLoop w' st cmds
        | .fail e w' cmds => .err e w' cmds
        | .panicked => .panicked

/-- The properties the discovery branch effectively works with: the payload of
an `Ok` result from `properties()`; a transport error is treated like an
absent snapshot, since both are logged and `continue`d over. -/
def propsOpt (w : World) (id : PeripheralId) : Option PeripheralProperties :=
  match w.props id with
  | .ok op => op
  | .error _ => none

/-- Whether the loop state at a normal loop exit has `device` and `pid` set
simultaneously (trivially true for the abort outcomes). -/
def LoopResult.syncAfter : LoopResult → Bool
  | .done _ st _ => st.device.isSome == st.pid.isSome
  | _ => true

/-- Options as in the scenario of the spec: adapter 0, name `"J1"`. -/
def optsJ1 : Options := { adaptor := 0, local_name := "J1", search_timeout := 10 }

/-- A platform with one adapter where no call fails, used as the base of the
concrete test worlds below. -/
def baseWorld : World where
  managerFails := false
  adaptersFails := false
  adapters := [()]
  eventsFails := false
  startScanFails := false
  peripheralFails := fun _ => false
  props := fun _ => .ok none
  isConnectedFails := fun _ => false
  connected := fun _ => false
  connectFails := fun _ => false
  connectOutcome := fun _ => true
  discoverFails := fun _ => false
  deviceServices := fun _ => []
  discovered := fun _ => []

/-- A platform exposing zero adapters. -/
def wNoAdapters : World := { baseWorld with adapters := [] }

/-- A platform where every peripheral advertises without a resolvable name,
so nothing ever matches. -/
def wQuiet : World := baseWorld

/-- A schedule delivering one discovery event inside the timeout, then a
quiet iteration, then one past the timeout. -/
def schedQuiet : Schedule :=
  [(0, some (.deviceDiscovered 0)), (5, none), (12, some (.deviceDiscovered 1))]

/-- A platform where peripheral 0 advertises a matching name, accepts the
connect command, but never reports connected (always-disconnected handle). -/
def wStubborn : World :=
  { baseWorld with
    props := fun _ => .ok (some { local_name := some "J1-07" })
    connectOutcome := fun _ => false }

/-- A platform where peripheral 0 matches and is already connected, but
service discovery comes back empty. -/
def wNoServices : World :=
  { baseWorld with
    props := fun _ => .ok (some { local_name := some "J1-07" })
    connected := fun _ => true }

/-- A platform where peripheral 0 matches, connects on request and exposes
one service. -/
def wHappy : World :=
  { baseWorld with
    props := fun _ => .ok (some { local_name := some "J1-Sensor-09" })
    deviceServices := fun _ => [{ uuid := 42, primary := true, characteristics := [7] }] }

/-- A schedule delivering one matching discovery event inside the timeout. -/
def schedOne : Schedule := [(1, some (.deviceDiscovered 0)), (11, none)]

/-- A loop state with a committed candidate, used to instantiate theorems. -/
def stCand : LoopState :=
  { device := some (3, { local_name := some "J1-07" }), pid := some 3 }

theorem setConnected_connected_self (w : World) (p : PeripheralId) (b : Bool) :
    (setConnected w p b).connected p = b := by
  simp [setConnected]

theorem setDiscovered_discovered_self (w : World) (p : PeripheralId) (svc : List Service) :
    (setDiscovered w p svc).discovered p = svc := by
  simp [setDiscovered]

/-- Claim C2: the device-matching predicate accepts exactly when properties
are present, carry a local name, and that name starts with the configured
string (codepoint prefix, case-sensitive); absent properties or absent name
yield `false`, and the empty configured name matches any present name. -/
theorem claim_C2 (op : Option PeripheralProperties) (pre : String) :
    (deviceMatches op pre = true ↔
      ∃ p l, op = some p ∧ p.local_name = some l ∧ strStartsWith l pre = true) ∧
    deviceMatches none pre = false ∧
    deviceMatches (some { local_name := none }) pre = false ∧
    (∀ n : String, deviceMatches (some { local_name := some n }) "" = true) := by
  refine ⟨?_, rfl, rfl, fun n => ?_⟩
  · cases op with
    | none => simp [deviceMatches]
    | some p =>
      cases hp : p.local_name with
      | none => simp [deviceMatches, hp]
      | some l => simp [deviceMatches, hp]
  · have h0 : ("" : String).data = [] := rfl
    simp [deviceMatches, strStartsWith, h0, List.isPrefixOf]

/-- Claim C7: an adapter index at or beyond the number of exposed adapters
makes `Sensor.connect` fail with `NoMatchingAdaptor` at that index, with an
empty command log — in particular no start-scan command is issued. -/
theorem claim_C7 (opts : Options) (w : World) (sched : Schedule)
    (hm : w.managerFails = false) (ha : w.adaptersFails = false)
    (hi : w.adapters.length ≤ opts.adaptor) :
    Sensor.connect opts w sched = .err (.noMatchingAdaptor opts.adaptor) w [] ∧
    Command.startScan ∉ (Sensor.connect opts w sched).cmdsOf := by
  have hg : w.adapters[opts.adaptor]? = none := List.getElem?_eq_none hi
  have hc : Sensor.connect opts w sched = .err (.noMatchingAdaptor opts.adaptor) w [] := by
    simp [Sensor.connect, hm, ha, hg]
  exact ⟨hc, by simp [hc, ConnectResult.cmdsOf]⟩

/-- Witness for claim C7 on a platform exposing zero adapters. -/
theorem claim_C7_wit :
    Sensor.connect optsJ1 wNoAdapters [] = .err (.noMatchingAdaptor 0) wNoAdapters [] ∧
    Command.startScan ∉ (Sensor.connect optsJ1 wNoAdapters []).cmdsOf :=
  claim_C7 optsJ1 wNoAdapters [] rfl rfl (by decide)

/-- Claim C8: a `DeviceDisconnected` event whose id equals the candidate's id
is log-only — the step leaves the platform state and the driver state
unchanged and issues no command. -/
theorem claim_C8 (opts : Options) (w : World) (st : LoopState) (q : PeripheralId)
    (h : st.pid = some q) :
    step opts w st (.deviceDisconnected q) = .ok w st [] := by
  obtain ⟨d, p⟩ := st
  obtain rfl : p = some q := h
  rfl

/-- Witness for claim C8 at a concrete candidate state. -/
theorem claim_C8_wit :
    step optsJ1 wQuiet stCand (.deviceDisconnected 3) = .ok wQuiet stCand [] :=
  claim_C8 optsJ1 wQuiet stCand 3 rfl

/-- Claim C3: once `pid` is set, a `DeviceDiscovered` event (any id) never
replaces the candidate, and any event with an id different from the
candidate's changes nothing — step returns the state untouched with no
commands. -/
theorem claim_C3 (opts : Options) (w : World) (st : LoopState) (q i : PeripheralId)
    (evt : CentralEvent) (h : st.pid = some q) (hne : evt.idOf ≠ q) :
    step opts w st (.deviceDiscovered i) = .ok w st [] ∧
    step opts w st evt = .ok w st [] := by
  obtain ⟨d, p⟩ := st
  obtain rfl : p = some q := h
  refine ⟨rfl, ?_⟩
  cases evt with
  | deviceDiscovered j => rfl
  | deviceConnected j =>
    simp only [CentralEvent.idOf] at hne
    simp [step, hne]
  | deviceDisconnected j => rfl
  | manufacturerDataAdvertisement j md => rfl
  | servicesAdvertisement j s => rfl
  | serviceDataAdvertisement j s => rfl
  | deviceUpdated j => rfl

/-- Witness for claim C3: with candidate id 3 set, a discovery of id 5 and a
connected event for id 5 both leave everything unchanged. -/
theorem claim_C3_wit :
    step optsJ1 wQuiet stCand (.deviceDiscovered 5) = .ok wQuiet stCand [] ∧
    step optsJ1 wQuiet stCand (.deviceConnected 5) = .ok wQuiet stCand [] :=
  claim_C3 optsJ1 wQuiet stCand 3 5 (.deviceConnected 5) rfl (by decide)

/-- Claim C9: the event loop's exit is decided by the clock alone — running
the time-bounded loop equals processing, with no time bound, exactly the
iterations whose observed elapsed time is below `search_timeout`; there is
no early exit on finding, connecting to, or discovering services for a
candidate. -/
theorem claim_C9 (opts : Options) (w : World) (st : LoopState) (cmds : List Command)
    (sched : Schedule) :
    runLoop opts w st cmds sched =
      processAll opts w st cmds
        (sched.takeWhile fun it => decide (it.1 < opts.search_timeout)) := by
  induction sched generalizing w st cmds with
  | nil => rfl
  | cons it rest ih =>
    obtain ⟨t, oe⟩ := it
    by_cases h : t < opts.search_timeout
    · have hd : (decide (t < opts.search_timeout)) = true := decide_eq_true h
      rw [List.takeWhile_cons]
      simp only [hd, if_true]
      cases oe with
      | none => simpa [runLoop, processAll, h] using ih w st cmds
      | some e =>
        cases hstep : step opts w st e with
        | ok w' st' cs => simpa [runLoop, processAll, h, hstep] using ih w' st' (cmds ++ cs)
        | fail e' => simp [runLoop, processAll, h, hstep]
        | panicked => simp [runLoop, processAll, h, hstep]
    · have hd : (decide (t < opts.search_timeout)) = false := decide_eq_false h
      rw [List.takeWhile_cons]
      simp only [hd, if_false]
      simp [runLoop, processAll, h]

theorem step_sync (opts : Options) (w : World) (st : LoopState) (evt : CentralEvent)
    (h : st.device.isSome = st.pid.isSome) :
    step opts w st evt ≠ .panicked ∧
    ∀ w' st' cs, step opts w st evt = .ok w' st' cs →
      st'.device.isSome = st'.pid.isSome := by
  obtain ⟨d, p⟩ := st
  cases evt with
  | deviceDiscovered i =>
    cases p with
    | some q => exact ⟨(fun hc => nomatch hc), fun w' st' cs hs => by cases hs; exact h⟩
    | none =>
      constructor
      · intro hc
        simp only [step] at hc
        repeat' split at hc
        all_goals cases hc
      · intro w' st' cs hs
        simp only [step] at hs
        repeat' split at hs
        all_goals cases hs <;> first | rfl | exact h
  | deviceConnected j =>
    cases p with
    | none => exact ⟨(fun hc => nomatch hc), fun w' st' cs hs => by cases hs; exact h⟩
    | some q =>
      by_cases hj : j = q
      · subst hj
        cases d with
        | none => simp at h
        | some dd =>
          constructor
          · intro hc
            simp only [step] at hc
            repeat' split at hc
            all_goals cases hc
          · intro w' st' cs hs
            simp only [step] at hs
            repeat' split at hs
            all_goals cases hs <;> first | rfl | exact h
      · constructor
        · intro hc
          simp only [step] at hc
          rw [if_neg hj] at hc
          cases hc
        · intro w' st' cs hs
          simp only [step] at hs
          rw [if_neg hj] at hs
          cases hs
          exact h
  | deviceDisconnected j =>
    exact ⟨(fun hc => nomatch hc), fun w' st' cs hs => by cases hs; exact h⟩
  | manufacturerDataAdvertisement j md =>
    exact ⟨(fun hc => nomatch hc), fun w' st' cs hs => by cases hs; exact h⟩
  | servicesAdvertisement j s =>
    exact ⟨(fun hc => nomatch hc), fun w' st' cs hs => by cases hs; exact h⟩
  | serviceDataAdvertisement j s =>
    exact ⟨(fun hc => nomatch hc), fun w' st' cs hs => by cases hs; exact h⟩
  | deviceUpdated j =>
    exact ⟨(fun hc => nomatch hc), fun w' st' cs hs => by cases hs; exact h⟩

theorem runLoop_sync (opts : Options) (sched : Schedule) :
    ∀ (w : World) (st : LoopState) (cmds : List Command),
      st.device.isSome = st.pid.isSome →
      runLoop opts w st cmds sched ≠ .panicked ∧
      (runLoop opts w st cmds sched).syncAfter = true := by
  induction sched with
  | nil =>
    intro w st cmds h
    exact ⟨(fun hc => nomatch hc), by simp [runLoop, LoopResult.syncAfter, h]⟩
  | cons it rest ih =>
    intro w st cmds h
    obtain ⟨t, oe⟩ := it
    by_cases ht : t < opts.search_timeout
    · cases oe with
      | none => simpa [runLoop, ht] using ih w st cmds h
      | some e =>
        have hstep := step_sync opts w st e h
        cases hse : step opts w st e with
        | ok w' st' cs =>
          have hsync := hstep.2 w' st' cs hse
          simpa [runLoop, ht, hse] using ih w' st' (cmds ++ cs) hsync
        | fail e' =>
          refine ⟨?_, ?_⟩ <;> simp [runLoop, ht, hse, LoopResult.syncAfter]
        | panicked => exact absurd hse hstep.1
    · exact ⟨by simp [runLoop, ht], by simp [runLoop, ht, LoopResult.syncAfter, h]⟩

theorem discoverPhase_ne_panicked (w : World) (dev : PeripheralId) (cmds : List Command) :
    postLoop.discoverPhase w dev cmds ≠ .panicked := by
  intro hc
  simp only [postLoop.discoverPhase] at hc
  split at hc
  · exact ConnectResult.noConfusion hc
  · split at hc
    · exact ConnectResult.noConfusion hc
    · exact ConnectResult.noConfusion hc

theorem reCheck_ne_panicked (w : World) (dev : PeripheralId) (cmds : List Command) :
    postLoop.reCheck w dev cmds ≠ .panicked := by
  intro hc
  unfold postLoop.reCheck at hc
  repeat' split at hc
  all_goals first
    | exact ConnectResult.noConfusion hc
    | exact discoverPhase_ne_panicked _ _ _ hc

theorem postLoop_ne_panicked (w : World) (st : LoopState) (cmds : List Command) :
    postLoop w st cmds ≠ .panicked := by
  intro hc
  unfold postLoop at hc
  repeat' split at hc
  all_goals first
    | exact ConnectResult.noConfusion hc
    | exact discoverPhase_ne_panicked _ _ _ hc
    | exact reCheck_ne_panicked _ _ _ hc

/-- Claim C10: `device` and `pid` are set simultaneously throughout the loop —
any loop run from a state where they agree preserves that agreement — and
consequently the `device.as_ref().unwrap()` in the `DeviceConnected` branch
never panics: no run of `Sensor.connect` ends in a panic. -/
theorem claim_C10 (opts : Options) (w : World) (st : LoopState) (cmds : List Command)
    (sched : Schedule) (h : st.device.isSome = st.pid.isSome) :
    runLoop opts w st cmds sched ≠ .panicked ∧
    (runLoop opts w st cmds sched).syncAfter = true ∧
    Sensor.connect opts w sched ≠ .panicked := by
  refine ⟨(runLoop_sync opts sched w st cmds h).1, (runLoop_sync opts sched w st cmds h).2, ?_⟩
  intro hc
  unfold Sensor.connect at hc
  repeat' split at hc
  all_goals first
    | exact ConnectResult.noConfusion hc
    | exact postLoop_ne_panicked _ _ _ hc
    | (rename_i heq
       exact (runLoop_sync opts sched w initState [.startScan] rfl).1 heq)

/-- Witness for claim C10 at a concrete world and schedule. -/
theorem claim_C10_wit :
    runLoop optsJ1 wQuiet initState [] schedQuiet ≠ .panicked ∧
    (runLoop optsJ1 wQuiet initState [] schedQuiet).syncAfter = true ∧
    Sensor.connect optsJ1 wQuiet schedQuiet ≠ .panicked :=
  claim_C10 optsJ1 wQuiet initState [] schedQuiet rfl

theorem step_noMatch (opts : Options) (w : World) (e : CentralEvent)
    (hp : ∀ id, e = .deviceDiscovered id → w.peripheralFails id = false ∧
      deviceMatches (propsOpt w id) opts.local_name = false) :
    step opts w initState e = .ok w initState [] := by
  cases e with
  | deviceDiscovered i =>
    obtain ⟨h1, h2⟩ := hp i rfl
    simp only [step, initState]
    rw [h1]
    simp only [Bool.false_eq_true, if_false]
    cases hpr : w.props i with
    | error u => rfl
    | ok op =>
      have hdm : deviceMatches op opts.local_name = false := by
        simpa [propsOpt, hpr] using h2
      simp [hdm]
  | deviceConnected j => rfl
  | deviceDisconnected j => rfl
  | manufacturerDataAdvertisement j md => rfl
  | servicesAdvertisement j s => rfl
  | serviceDataAdvertisement j s => rfl
  | deviceUpdated j => rfl

theorem runLoop_noMatch (opts : Options) (sched : Schedule) :
    ∀ (w : World) (cmds : List Command),
      (∀ t id, (t, some (CentralEvent.deviceDiscovered id)) ∈ sched →
        w.peripheralFails id = false ∧
        deviceMatches (propsOpt w id) opts.local_name = false) →
      runLoop opts w initState cmds sched = .done w initState cmds := by
  induction sched with
  | nil => intro w cmds _; rfl
  | cons it rest ih =>
    intro w cmds hq
    obtain ⟨t, oe⟩ := it
    by_cases ht : t < opts.search_timeout
    · cases oe with
      | none =>
        have hrest := ih w cmds (fun t' id' hmem => hq t' id' (List.mem_cons_of_mem _ hmem))
        simp [runLoop, ht, hrest]
      | some e =>
        have hstep : step opts w initState e = .ok w initState [] := by
          refine step_noMatch opts w e (fun id he => ?_)
          subst he
          exact hq t id (List.mem_cons_self _ _)
        have hrest := ih w cmds (fun t' id' hmem => hq t' id' (List.mem_cons_of_mem _ hmem))
        simp [runLoop, ht, hstep, hrest]
    · simp [runLoop, ht]

/-- Claim C1 (amended): if the search timeout elapses with zero matching
`DeviceDiscovered` events (and no BLE failure interrupts discovery), the
operation fails with `NoDeviceFound`; the `stop_scan` call is commented out
in the code, so it is invoked zero times — not once. -/
theorem claim_C1 (opts : Options) (w : World) (sched : Schedule)
    (hm : w.managerFails = false) (ha : w.adaptersFails = false)
    (had : opts.adaptor < w.adapters.length)
    (he : w.eventsFails = false) (hs : w.startScanFails = false)
    (hq : ∀ t id, (t, some (CentralEvent.deviceDiscovered id)) ∈ sched →
      w.peripheralFails id = false ∧
      deviceMatches (propsOpt w id) opts.local_name = false) :
    Sensor.connect opts w sched = .err .noDeviceFound w [.startScan] ∧
    (Sensor.connect opts w sched).cmdsOf.count Command.stopScan = 0 := by
  have hloop := runLoop_noMatch opts sched w [.startScan] hq
  have hg : w.adapters.get? opts.adaptor = some (w.adapters.get ⟨opts.adaptor, had⟩) :=
    List.get?_eq_get had
  have hc : Sensor.connect opts w sched = .err .noDeviceFound w [.startScan] := by
    simp only [Sensor.connect, hm, ha, hg, he, hs, Bool.false_eq_true, if_false]
    rw [hloop]
    rfl
  refine ⟨hc, ?_⟩
  rw [hc]
  rfl

/-- Witness for the amended claim C1: a run where every advertisement lacks a
resolvable name times out with `NoDeviceFound` and zero `stop_scan` calls. -/
theorem claim_C1_wit :
    Sensor.connect optsJ1 wQuiet schedQuiet = .err .noDeviceFound wQuiet [.startScan] ∧
    (Sensor.connect optsJ1 wQuiet schedQuiet).cmdsOf.count Command.stopScan = 0 := by
  refine claim_C1 optsJ1 wQuiet schedQuiet rfl rfl (by decide) rfl rfl ?_
  intro t id hmem
  simp only [schedQuiet, List.mem_cons, List.not_mem_nil, or_false] at hmem
  rcases hmem with h1 | h2 | h3
  · cases h1; exact ⟨rfl, rfl⟩
  · exact absurd h2 (by simp)
  · cases h3; exact ⟨rfl, rfl⟩

/-- Counterexample to claim C1 as stated: a concrete timed-out run that fails
with `NoDeviceFound` while `stop_scan` was invoked zero times, not exactly
once. -/
theorem claim_C1_cex :
    (Sensor.connect optsJ1 wQuiet schedQuiet).errorOf = some .noDeviceFound ∧
    (Sensor.connect optsJ1 wQuiet schedQuiet).cmdsOf.count Command.stopScan = 0 := by
  constructor <;> rfl

theorem connect_eq_postLoop (opts : Options) (w w1 : World) (sched : Schedule)
    (st1 : LoopState) (cmds1 : List Command)
    (hm : w.managerFails = false) (ha : w.adaptersFails = false)
    (had : opts.adaptor < w.adapters.length)
    (he : w.eventsFails = false) (hs : w.startScanFails = false)
    (hloop : runLoop opts w initState [.startScan] sched = .done w1 st1 cmds1) :
    Sensor.connect opts w sched = postLoop w1 st1 cmds1 := by
  have hg : w.adapters.get? opts.adaptor = some (w.adapters.get ⟨opts.adaptor, had⟩) :=
    List.get?_eq_get had
  simp only [Sensor.connect, hm, ha, hg, he, hs, Bool.false_eq_true, if_false]
  rw [hloop]

theorem postLoop_connectFailed (w : World) (st : LoopState) (cmds : List Command)
    (dev : PeripheralId) (pr : PeripheralProperties)
    (hdev : st.device = some (dev, pr))
    (hic : w.isConnectedFails dev = false)
    (hconn : w.connected dev = false)
    (hcf : w.connectFails dev = false)
    (hout : w.connectOutcome dev = false) :
    postLoop w st cmds =
      .err .connectFailed (setConnected w dev false) (cmds ++ [.connectCmd dev]) := by
  unfold postLoop
  rw [hdev]
  simp [hic, hconn, hcf, hout, postLoop.reCheck, setConnected]

theorem discoverPhase_eq (w : World) (dev : PeripheralId) (cmds : List Command)
    (hdf : w.discoverFails dev = false) :
    postLoop.discoverPhase w dev cmds =
      if (w.deviceServices dev).isEmpty then
        .err .noServicesFound (setDiscovered w dev (w.deviceServices dev))
          (cmds ++ [.discoverCmd dev])
      else
        .ok { p := dev } (setDiscovered w dev (w.deviceServices dev))
          (cmds ++ [.discoverCmd dev]) := by
  unfold postLoop.discoverPhase
  simp [hdf, setDiscovered_discovered_self]

theorem postLoop_noServices (w : World) (st : LoopState) (cmds : List Command)
    (dev : PeripheralId) (pr : PeripheralProperties)
    (hdev : st.device = some (dev, pr))
    (hic : w.isConnectedFails dev = false)
    (hpath : w.connected dev = true ∨
      (w.connected dev = false ∧ w.connectFails dev = false ∧ w.connectOutcome dev = true))
    (hdf : w.discoverFails dev = false)
    (hsvc : w.deviceServices dev = []) :
    (postLoop w st cmds).errorOf = some .noServicesFound := by
  unfold postLoop
  rw [hdev]
  rcases hpath with hconn | ⟨hconn, hcf, hout⟩
  · simp [hic, hconn, postLoop.discoverPhase, hdf, setDiscovered, hsvc,
      ConnectResult.errorOf]
  · simp [hic, hconn, hcf, hout, postLoop.reCheck, setConnected,
      postLoop.discoverPhase, hdf, setDiscovered, hsvc, ConnectResult.errorOf]

theorem postLoop_success (w : World) (st : LoopState) (cmds : List Command)
    (dev : PeripheralId) (pr : PeripheralProperties)
    (hdev : st.device = some (dev, pr))
    (hic : w.isConnectedFails dev = false)
    (hpath : w.connected dev = true ∨
      (w.connected dev = false ∧ w.connectFails dev = false ∧ w.connectOutcome dev = true))
    (hdf : w.discoverFails dev = false)
    (hsvc : w.deviceServices dev ≠ []) :
    (postLoop w st cmds).isOk = true ∧
    (postLoop w st cmds).sensorServices = some (w.deviceServices dev) := by
  have hne : (w.deviceServices dev).isEmpty = false := by simp [List.isEmpty_iff, hsvc]
  unfold postLoop
  rw [hdev]
  rcases hpath with hconn | ⟨hconn, hcf, hout⟩
  · constructor <;>
      simp [hic, hconn, postLoop.discoverPhase, hdf, setDiscovered, hne,
        ConnectResult.isOk, ConnectResult.sensorServices]
  · constructor <;>
      simp [hic, hconn, hcf, hout, postLoop.reCheck, setConnected,
        postLoop.discoverPhase, hdf, setDiscovered, hne,
        ConnectResult.isOk, ConnectResult.sensorServices]

/-- Claim C5: when a candidate was set but its handle still reports
not-connected after the loop, `Sensor.connect` issues exactly one post-loop
connect command and re-checks the connection state; if the handle still
reports not connected the run fails with `ConnectFailed`. -/
theorem claim_C5 (opts : Options) (w w1 : World) (sched : Schedule) (st1 : LoopState)
    (cmds1 : List Command) (dev : PeripheralId) (pr : PeripheralProperties)
    (hm : w.managerFails = false) (ha : w.adaptersFails = false)
    (had : opts.adaptor < w.adapters.length)
    (he : w.eventsFails = false) (hs : w.startScanFails = false)
    (hloop : runLoop opts w initState [.startScan] sched = .done w1 st1 cmds1)
    (hdev : st1.device = some (dev, pr))
    (hic : w1.isConnectedFails dev = false)
    (hconn : w1.connected dev = false)
    (hcf : w1.connectFails dev = false)
    (hout : w1.connectOutcome dev = false) :
    Sensor.connect opts w sched =
      .err .connectFailed (setConnected w1 dev false) (cmds1 ++ [.connectCmd dev]) ∧
    (Sensor.connect opts w sched).cmdsOf.count (.connectCmd dev) =
      cmds1.count (.connectCmd dev) + 1 := by
  have hc := connect_eq_postLoop opts w w1 sched st1 cmds1 hm ha had he hs hloop
  have hp := postLoop_connectFailed w1 st1 cmds1 dev pr hdev hic hconn hcf hout
  refine ⟨hc.trans hp, ?_⟩
  rw [hc, hp]
  simp [ConnectResult.cmdsOf, List.count_append]

/-- Witness for claim C5: an always-disconnected handle makes the run fail
with `ConnectFailed` after a single post-loop connect command. -/
theorem claim_C5_wit :
    Sensor.connect optsJ1 wStubborn schedOne =
      .err .connectFailed (setConnected (setConnected wStubborn 0 false) 0 false)
        [.startScan, .connectCmd 0, .connectCmd 0] ∧
    (Sensor.connect optsJ1 wStubborn schedOne).cmdsOf.count (.connectCmd 0) =
      [Command.startScan, Command.connectCmd 0].count (Command.connectCmd 0) + 1 :=
  claim_C5 optsJ1 wStubborn (setConnected wStubborn 0 false) schedOne
    { device := some (0, { local_name := some "J1-07" }), pid := some 0 }
    [.startScan, .connectCmd 0] 0 { local_name := some "J1-07" }
    rfl rfl (by decide) rfl rfl rfl rfl rfl rfl rfl rfl

/-- Claim C6: when a candidate is found, the post-loop connection check
succeeds (directly or after the single connect attempt), but post-loop
service discovery returns an empty list, `Sensor.connect` fails with
`NoServicesFound`. -/
theorem claim_C6 (opts : Options) (w w1 : World) (sched : Schedule) (st1 : LoopState)
    (cmds1 : List Command) (dev : PeripheralId) (pr : PeripheralProperties)
    (hm : w.managerFails = false) (ha : w.adaptersFails = false)
    (had : opts.adaptor < w.adapters.length)
    (he : w.eventsFails = false) (hs : w.startScanFails = false)
    (hloop : runLoop opts w initState [.startScan] sched = .done w1 st1 cmds1)
    (hdev : st1.device = some (dev, pr))
    (hic : w1.isConnectedFails dev = false)
    (hpath : w1.connected dev = true ∨
      (w1.connected dev = false ∧ w1.connectFails dev = false ∧ w1.connectOutcome dev = true))
    (hdf : w1.discoverFails dev = false)
    (hsvc : w1.deviceServices dev = []) :
    (Sensor.connect opts w sched).errorOf = some .noServicesFound := by
  rw [connect_eq_postLoop opts w w1 sched st1 cmds1 hm ha had he hs hloop]
  exact postLoop_noServices w1 st1 cmds1 dev pr hdev hic hpath hdf hsvc

/-- Witness for claim C6: a connected matching device exposing zero services
makes the run fail with `NoServicesFound`. -/
theorem claim_C6_wit :
    (Sensor.connect optsJ1 wNoServices schedOne).errorOf = some .noServicesFound :=
  claim_C6 optsJ1 wNoServices (setDiscovered wNoServices 0 []) schedOne
    { device := some (0, { local_name := some "J1-07" }), pid := some 0 }
    [.startScan, .discoverCmd 0] 0 { local_name := some "J1-07" }
    rfl rfl (by decide) rfl rfl rfl rfl rfl (Or.inl rfl) rfl rfl

/-- Claim C4: when a candidate is found, the post-loop connection check
succeeds (directly or after the single connect attempt), and service
discovery yields at least one service, `Sensor.connect` returns `Ok` and the
returned handle's service list is exactly the discovered one — non-empty. -/
theorem claim_C4 (opts : Options) (w w1 : World) (sched : Schedule) (st1 : LoopState)
    (cmds1 : List Command) (dev : PeripheralId) (pr : PeripheralProperties)
    (hm : w.managerFails = false) (ha : w.adaptersFails = false)
    (had : opts.adaptor < w.adapters.length)
    (he : w.eventsFails = false) (hs : w.startScanFails = false)
    (hloop : runLoop opts w initState [.startScan] sched = .done w1 st1 cmds1)
    (hdev : st1.device = some (dev, pr))
    (hic : w1.isConnectedFails dev = false)
    (hpath : w1.connected dev = true ∨
      (w1.connected dev = false ∧ w1.connectFails dev = false ∧ w1.connectOutcome dev = true))
    (hdf : w1.discoverFails dev = false)
    (hsvc : w1.deviceServices dev ≠ []) :
    (Sensor.connect opts w sched).isOk = true ∧
    (Sensor.connect opts w sched).sensorServices = some (w1.deviceServices dev) ∧
    (Sensor.connect opts w sched).sensorServices ≠ some [] := by
  have hc := connect_eq_postLoop opts w w1 sched st1 cmds1 hm ha had he hs hloop
  have hp := postLoop_success w1 st1 cmds1 dev pr hdev hic hpath hdf hsvc
  refine ⟨by rw [hc]; exact hp.1, by rw [hc]; exact hp.2, ?_⟩
  rw [hc, hp.2]
  simp [hsvc]

/-- Witness for claim C4: a matching device that connects and reports one
service yields a successful run with that non-empty service list. -/
theorem claim_C4_wit :
    (Sensor.connect optsJ1 wHappy schedOne).isOk = true ∧
    (Sensor.connect optsJ1 wHappy schedOne).sensorServices =
      some ((setConnected wHappy 0 true).deviceServices 0) ∧
    (Sensor.connect optsJ1 wHappy schedOne).sensorServices ≠ some [] :=
  claim_C4 optsJ1 wHappy (setConnected wHappy 0 true) schedOne
    { device := some (0, { local_name := some "J1-Sensor-09" }), pid := some 0 }
    [.startScan, .connectCmd 0] 0 { local_name := some "J1-Sensor-09" }
    rfl rfl (by decide) rfl rfl rfl rfl rfl (Or.inl rfl) rfl (by decide)
